/-
  Verification of the GasTag bridge firmware (ESP32Firmware: main.c, ota_update.c,
  ota_update.h) against its natural-language specification.

  The C sources are shallowly embedded: each handler or loop becomes a pure Lean
  function over explicit state, with the collaborator outcomes (partition lookup,
  flash begin/write/end, socket receives, poll schedules) supplied as inputs.
  Flash-affecting calls are recorded as an ordered list of `FlashOp` events so
  that ordering properties ("no write before the header check", "boot commit only
  after a successful finalize") can be stated about the trace.
-/
import Mathlib

set_option linter.unusedVariables false
set_option maxRecDepth 8000

namespace GasTag

/-! ## Constants from ota_update.h and the ESP-IDF headers -/

/-- Error code `OTA_ERR_OTA_BEGIN` (ota_update.h). -/
def OTA_ERR_OTA_BEGIN : Nat := 0x1004
/-- Error code `OTA_ERR_OTA_WRITE` (ota_update.h). -/
def OTA_ERR_OTA_WRITE : Nat := 0x1005
/-- Error code `OTA_ERR_OTA_END` (ota_update.h). -/
def OTA_ERR_OTA_END : Nat := 0x1006
/-- Error code `OTA_ERR_VALIDATION` (ota_update.h). -/
def OTA_ERR_VALIDATION : Nat := 0x1007
/-- Error code `OTA_ERR_SET_BOOT` (ota_update.h). -/
def OTA_ERR_SET_BOOT : Nat := 0x1008
/-- Error code `OTA_ERR_TIMEOUT` (ota_update.h); defined there but never assigned
    anywhere in the sources. -/
def OTA_ERR_TIMEOUT : Nat := 0x1009
/-- `OTA_CHUNK_SIZE` (ota_update.h): upload receive-buffer size in bytes. -/
def OTA_CHUNK_SIZE : Nat := 4096
/-- `ESP_IMAGE_HEADER_MAGIC` (esp_app_format.h): first byte of a valid image. -/
def ESP_IMAGE_HEADER_MAGIC : Nat := 0xE9
/-- `sizeof(esp_image_header_t)` on the target: 24 bytes. -/
def espImageHeaderSize : Nat := 24

/-! ## OTA pipeline state (ota_update.c globals) -/

/-- `ota_state_t` (ota_update.h). -/
inductive OtaState
  | idle
  | wifiStarting
  | wifiReady
  | updating
  | validating
  | success
  | failed
deriving DecidableEq, Repr

/-- The mutable module state of ota_update.c that the upload handler touches:
    `current_state`, `update_progress`, `last_error`, `total_size`,
    `received_size`. -/
structure OtaVars where
  state : OtaState
  progress : Int
  lastError : Nat
  totalSize : Nat
  receivedSize : Nat
deriving DecidableEq, Repr

/-- One return of `httpd_req_recv` inside the receive loop of
    `update_post_handler`: a socket timeout (`HTTPD_SOCK_ERR_TIMEOUT`, retried),
    some other socket error (negative return), or a block of body bytes
    (`recv_len = bytes.length`; a 0-byte return is treated by the C code as the
    error branch, which the model reproduces). -/
inductive RecvEvent
  | timeout
  | sockErr
  | data (bytes : List Nat)
deriving DecidableEq, Repr

/-- Flash-affecting calls made by `update_post_handler`, recorded in call order:
    a successful `esp_ota_begin`, each `esp_ota_write` call with its bytes,
    `esp_ota_abort`, `esp_ota_end` with its success flag, and a successful
    `esp_ota_set_boot_partition` (i.e. the boot pointer actually changed). -/
inductive FlashOp
  | beginOp
  | writeOp (bytes : List Nat)
  | abortOp
  | finalizeOp (ok : Bool)
  | setBootOp
deriving DecidableEq, Repr

/-- The HTTP response sent back by `update_post_handler`. `blocked` models the
    (physically impossible under the HTTP contract) case that the supplied
    receive-event schedule is exhausted while body bytes remain: the real
    handler would still be inside `httpd_req_recv`. -/
inductive HttpResponse
  | err400 (msg : String)
  | err500 (msg : String)
  | okJson (msg : String)
  | blocked
deriving DecidableEq, Repr

/-- Outcomes of the external collaborators used by `update_post_handler`:
    whether `esp_ota_get_next_update_partition` finds a partition, whether
    `esp_ota_begin` / `malloc` / `esp_ota_end` / `esp_ota_set_boot_partition`
    succeed, the per-call outcome of `esp_ota_write`, and whether a failing
    `esp_ota_end` reports `ESP_ERR_OTA_VALIDATE_FAILED`. -/
structure Env where
  partitionAvailable : Bool
  beginOk : Bool
  mallocOk : Bool
  writeOk : Nat → Bool
  endOk : Bool
  endValidateFailed : Bool
  setBootOk : Bool

/-- Result of one run of `update_post_handler`: final module state, ordered
    flash-operation trace, and the HTTP response. -/
structure HandlerResult where
  vars : OtaVars
  ops : List FlashOp
  response : HttpResponse
deriving DecidableEq, Repr

/-- Result of the chunk-receive loop (`while (remaining > 0)` in
    `update_post_handler`): either the whole body was received, or the handler
    already returned with a failure result. -/
inductive LoopOut
  | done (v : OtaVars) (ops : List FlashOp)
  | fail (r : HandlerResult)
deriving DecidableEq, Repr

/-- Progress expression of ota_update.c line 200:
    `update_progress = (received_size * 100) / total_size;` — `size_t` (32-bit
    on the target) multiplication followed by integer division. -/
def computeProgress (receivedSize totalSize : Nat) : Nat :=
  receivedSize * 100 % 2 ^ 32 / totalSize

/-- The receive loop of `update_post_handler` (ota_update.c lines 139-206).
    While `remaining > 0`: take the next `httpd_req_recv` outcome; retry on
    timeout; abort with `OTA_ERR_OTA_WRITE` on other receive errors; on the
    first data chunk check the image-header size and magic byte before any
    `esp_ota_write` call, aborting with `OTA_ERR_VALIDATION` on failure; then
    `esp_ota_write` the chunk and advance the counters and progress. -/
def recvLoop (env : Env) (v : OtaVars) (remaining : Nat) (firstChunk : Bool)
    (writeIdx : Nat) (ops : List FlashOp) (events : List RecvEvent) : LoopOut :=
  if remaining = 0 then
    .done v ops
  else
    match events with
    | [] => .fail ⟨v, ops, .blocked⟩
    | .timeout :: rest =>
        recvLoop env v remaining firstChunk writeIdx ops rest
    | .sockErr :: rest =>
        .fail ⟨{ v with lastError := OTA_ERR_OTA_WRITE, state := .failed },
               ops ++ [.abortOp], .err500 "Receive error"⟩
    | .data bytes :: rest =>
        if bytes.length = 0 then
          .fail ⟨{ v with lastError := OTA_ERR_OTA_WRITE, state := .failed },
                 ops ++ [.abortOp], .err500 "Receive error"⟩
        else if firstChunk ∧ bytes.length < espImageHeaderSize then
          .fail ⟨{ v with lastError := OTA_ERR_VALIDATION, state := .failed },
                 ops ++ [.abortOp], .err400 "Invalid firmware"⟩
        else if firstChunk ∧ bytes.head? ≠ some ESP_IMAGE_HEADER_MAGIC then
          .fail ⟨{ v with lastError := OTA_ERR_VALIDATION, state := .failed },
                 ops ++ [.abortOp], .err400 "Invalid firmware header"⟩
        else
          let ops2 := ops ++ [.writeOp bytes]
          if env.writeOk writeIdx = false then
            .fail ⟨{ v with lastError := OTA_ERR_OTA_WRITE, state := .failed },
                   ops2 ++ [.abortOp], .err500 "Write error"⟩
          else
            let received := v.receivedSize + bytes.length
            recvLoop env
              { v with receivedSize := received,
                       progress := Int.ofNat (computeProgress received v.totalSize) }
              (remaining - bytes.length) false (writeIdx + 1) ops2 rest

/-- `update_post_handler` (ota_update.c lines 91-252), with collaborator
    outcomes supplied by `env`, the body receive schedule by `events`, and the
    module state on entry by `v0`. Returns final state, flash trace, response. -/
def update_post_handler (env : Env) (contentLen : Nat) (events : List RecvEvent)
    (v0 : OtaVars) : HandlerResult :=
  if contentLen = 0 then
    ⟨v0, [], .err400 "No firmware data"⟩
  else
    let v : OtaVars := { v0 with state := .updating, totalSize := contentLen,
                                 receivedSize := 0, progress := 0 }
    if env.partitionAvailable = false then
      ⟨{ v with lastError := OTA_ERR_OTA_BEGIN, state := .failed }, [],
       .err500 "No OTA partition"⟩
    else if env.beginOk = false then
      ⟨{ v with lastError := OTA_ERR_OTA_BEGIN, state := .failed }, [],
       .err500 "OTA begin failed"⟩
    else if env.mallocOk = false then
      ⟨{ v with lastError := OTA_ERR_OTA_WRITE, state := .failed },
       [.beginOp, .abortOp], .err500 "Memory allocation failed"⟩
    else
      match recvLoop env v contentLen true 0 [.beginOp] events with
      | .fail r => r
      | .done v1 ops1 =>
          let v2 : OtaVars := { v1 with state := .validating }
          if env.endOk = false then
            let v3 : OtaVars := { v2 with lastError := OTA_ERR_OTA_END, state := .failed }
            if env.endValidateFailed then
              ⟨v3, ops1 ++ [.finalizeOp false], .err400 "Firmware validation failed"⟩
            else
              ⟨v3, ops1 ++ [.finalizeOp false], .err500 "OTA finalize failed"⟩
          else if env.setBootOk = false then
            ⟨{ v2 with lastError := OTA_ERR_SET_BOOT, state := .failed },
             ops1 ++ [.finalizeOp true], .err500 "Set boot partition failed"⟩
          else
            ⟨{ v2 with state := .success, progress := 100 },
             ops1 ++ [.finalizeOp true, .setBootOp], .okJson "success"⟩

/-- `ota_stop_update_mode` (ota_update.c lines 416-422): stops the HTTP server
    and WiFi AP, then resets `current_state` to Idle and `update_progress` to
    -1. It leaves `last_error` untouched. -/
def ota_stop_update_mode (v : OtaVars) : OtaVars :=
  { v with state := .idle, progress := -1 }

/-! ## Mode Coordinator wait loop (app_main, main.c lines 618-645) -/

/-- Number of 1-second polls after which the elapsed time exceeds the 5-minute
    ceiling: `OTA_TIMEOUT_TICKS = pdMS_TO_TICKS(5*60*1000)` checked against
    `xTaskGetTickCount() - ota_start_time` with a 1000 ms delay per iteration,
    so the `elapsed > ceiling` test first succeeds on poll 301. -/
def OTA_TIMEOUT_POLLS : Nat := 300

/-- Exit of the coordinator wait loop in `app_main`: the pipeline reached
    Success (the HTTP handler reboots the device), the pipeline reached Failed
    (the coordinator restarts the device), or the 5-minute ceiling was hit (the
    coordinator calls `ota_stop_update_mode` — recorded state carried here —
    and restarts the device back into bridge mode). -/
inductive CoordOutcome
  | successExit
  | failedRestart
  | timeoutRestart (v : OtaVars)
deriving DecidableEq, Repr

/-- One-second polling loop of `app_main` (main.c lines 625-645): while the
    pipeline state is neither Success nor Failed, compare elapsed polls with
    the ceiling; `n` counts the polls remaining before `elapsed > ceiling`
    first holds (so the loop starts with `n = OTA_TIMEOUT_POLLS + 1`). `sched k`
    is the pipeline state observed at the k-th poll. -/
def coordinatorWaitAux (sched : Nat → OtaVars) : Nat → Nat → CoordOutcome
  | k, n =>
    if (sched k).state = .success then .successExit
    else if (sched k).state = .failed then .failedRestart
    else
      match n with
      | 0 => .timeoutRestart (ota_stop_update_mode (sched k))
      | n + 1 => coordinatorWaitAux sched (k + 1) n

/-- The coordinator wait loop started at poll 0 with the full 5-minute budget. -/
def coordinatorWait (sched : Nat → OtaVars) : CoordOutcome :=
  coordinatorWaitAux sched 0 (OTA_TIMEOUT_POLLS + 1)

/-! ## Line framer (handle_rx, main.c lines 150-185) -/

/-- Processing of one received byte by `handle_rx`: CR/LF with a non-empty
    buffer emits the buffered line and clears the buffer; CR/LF with an empty
    buffer does nothing; printable ASCII (32-126) is appended while
    `line_buffer_pos < sizeof(line_buffer) - 1` (capacity 255) and silently
    dropped beyond; all other bytes are ignored. -/
def frameByte (buf : List Nat) (c : Nat) : List Nat × Option (List Nat) :=
  if c = 10 ∨ c = 13 then
    if 0 < buf.length then ([], some buf) else (buf, none)
  else if 32 ≤ c ∧ c < 127 then
    if buf.length < 255 then (buf ++ [c], none) else (buf, none)
  else
    (buf, none)

/-- The byte loop of `handle_rx`: fold `frameByte` over the received bytes,
    collecting the emitted line events in order, returning the final buffer
    contents and the events. -/
def handle_rx (buf : List Nat) : List Nat → List Nat × List (List Nat)
  | [] => (buf, [])
  | c :: rest =>
      match frameByte buf c with
      | (buf2, none) => handle_rx buf2 rest
      | (buf2, some line) =>
          let r := handle_rx buf2 rest
          (r.1, line :: r.2)

/-! ## BLE write handler and mode flag (main.c lines 482-502, 592-609) -/

/-- The fields of an `ESP_GATTS_WRITE_EVT` used by `gatts_event_handler`. -/
structure WriteParams where
  handle : Nat
  value : List Nat
  needRsp : Bool
deriving DecidableEq, Repr

/-- The `ESP_GATTS_WRITE_EVT` branch of `gatts_event_handler` (main.c lines
    482-502). The only state it can change is `ota_mode_requested`: if the
    written handle is the OTA control handle and the payload has at least one
    byte, command byte `0x01` sets the flag and any other command is ignored.
    A response is then sent exactly when `need_rsp` is set. Returns
    (new flag value, whether a response was sent). -/
def gatts_write_event (otaCharHandle : Nat) (otaModeRequested : Bool)
    (p : WriteParams) : Bool × Bool :=
  let flag :=
    if p.handle = otaCharHandle ∧ 1 ≤ p.value.length then
      match p.value.head? with
      | some command => if command = 1 then true else otaModeRequested
      | none => otaModeRequested
    else otaModeRequested
  (flag, p.needRsp)

/-- Observable steps of one iteration of the `app_main` mode-switch branch
    (main.c lines 593-609), in program order. -/
inductive MainAction
  | clearFlag
  | stopAdv
  | bluedroidDisable
  | bluedroidDeinit
  | btDisable
  | btDeinit
  | startOtaMode
deriving DecidableEq, BEq, Repr

/-- One iteration of the `app_main` control loop (main.c lines 592-609): if
    `ota_mode_requested` is set, clear it first, then stop advertising, tear
    down the BLE stack and enter OTA update mode; otherwise do nothing.
    Returns the new flag value and the ordered actions performed. -/
def mainLoopIter (otaModeRequested : Bool) : Bool × List MainAction :=
  if otaModeRequested then
    (false, [.clearFlag, .stopAdv, .bluedroidDisable, .bluedroidDeinit,
             .btDisable, .btDeinit, .startOtaMode])
  else
    (otaModeRequested, [])

/-! ## Bridge session watchdog (usb_host_task, main.c lines 305-325) -/

/-- `DATA_TIMEOUT_MS` (main.c line 98). -/
def DATA_TIMEOUT_MS : Nat := 5000

/-- The watchdog test of main.c lines 317-320: `elapsed > DATA_TIMEOUT_MS`
    with `elapsed = now_ms - last_data_time_ms` (monotonic tick clock, so
    `now ≥ lastData` and Nat subtraction agrees with the uint32 arithmetic). -/
def watchdogExpired (now lastData : Nat) : Bool :=
  decide (DATA_TIMEOUT_MS < now - lastData)

/-- One iteration of the Active wait loop (main.c lines 310-325): either the
    disconnect semaphore was taken at time `t`, or the 1-second take timed out
    and the watchdog is checked at time `t`. -/
inductive ActivePoll
  | disconnect (t : Nat)
  | check (t : Nat)
deriving DecidableEq, Repr

/-- How the session left the Active state: explicit disconnect event, or
    watchdog expiry, each at the poll time where it was observed. -/
inductive SessionExit
  | disconnectEvt (t : Nat)
  | watchdog (t : Nat)
deriving DecidableEq, Repr

/-- The `while (device_active)` loop of `usb_host_task` for a session whose
    last received byte was at time `lastData` and after which no bytes arrive:
    a disconnect poll exits immediately; a check poll exits iff the watchdog
    has expired at that time; otherwise the loop continues. `none` means the
    supplied poll schedule ended with the session still Active. -/
def activeLoop (lastData : Nat) : List ActivePoll → Option SessionExit
  | [] => none
  | .disconnect t :: _ => some (.disconnectEvt t)
  | .check t :: rest =>
      if watchdogExpired t lastData then some (.watchdog t)
      else activeLoop lastData rest

/-- A list of poll times turned into watchdog-check polls (no disconnect). -/
def checkTimes (ts : List Nat) : List ActivePoll :=
  ts.map ActivePoll.check

/-- Consecutive elements of the list are at most `g` apart (the semaphore wait
    bounds each poll gap by 1000 ms). -/
def gapsWithin (g : Nat) : List Nat → Bool
  | a :: b :: rest => decide (b ≤ a + g) && gapsWithin g (b :: rest)
  | _ => true

/-! ## Trace predicates -/

/-- No `esp_ota_write` call appears in the flash trace. -/
def noFlashWrite (ops : List FlashOp) : Bool :=
  ops.all fun op =>
    match op with
    | .writeOp _ => false
    | _ => true

/-- No successful `esp_ota_set_boot_partition` appears in the flash trace. -/
def noSetBoot (ops : List FlashOp) : Bool :=
  ops.all fun op =>
    match op with
    | .setBootOp => false
    | _ => true

/-- Every boot-pointer change in the trace is preceded by a successful
    finalize: scanning left to right, a `setBootOp` must not occur before the
    first `finalizeOp true`. -/
def setBootAfterFinalize : List FlashOp → Bool
  | [] => true
  | .setBootOp :: _ => false
  | .finalizeOp true :: _ => true
  | _ :: rest => setBootAfterFinalize rest

/-! ## Concrete inputs used by witnesses and counterexamples -/

/-- Collaborator environment in which every external call succeeds. -/
def envAllOk : Env :=
  ⟨true, true, true, fun _ => true, true, false, true⟩

/-- Module state after `ota_start_update_mode` succeeded: WiFi ready, no error,
    progress -1 (as left by `ota_init`). -/
def v0Ready : OtaVars :=
  ⟨.wifiReady, -1, 0, 0, 0⟩

/-- A pipeline that never leaves `wifiReady`: update mode entered but no upload
    ever starts. -/
def schedStuck : Nat → OtaVars :=
  fun _ => v0Ready

/-! ## Theorems -/

/-- C3 counterexample: a POST with declared content length 0 is rejected with a
    400 response, but the pipeline state stays `wifiReady` (it does not
    transition to Failed) and `last_error` stays 0 (it is not set to
    `OTA_ERR_VALIDATION`), contradicting the claim. -/
theorem zero_length_no_failed_state :
    (update_post_handler envAllOk 0 [] v0Ready).vars.state = OtaState.wifiReady ∧
    OtaState.wifiReady ≠ OtaState.failed ∧
    (update_post_handler envAllOk 0 [] v0Ready).vars.lastError = 0 ∧
    (0 : Nat) ≠ OTA_ERR_VALIDATION ∧
    (update_post_handler envAllOk 0 [] v0Ready).response =
      HttpResponse.err400 "No firmware data" :=
  ⟨rfl, by decide, rfl, by decide, rfl⟩

/-- C3 amended: a POST with declared content length 0 is rejected immediately
    with a 400 error response and nothing is written to flash, but the module
    state (pipeline state, last error, counters) is left exactly as it was —
    there is no transition to Failed and no error code is recorded. -/
theorem zero_length_rejected_state_unchanged (env : Env) (events : List RecvEvent)
    (v0 : OtaVars) :
    update_post_handler env 0 events v0 =
      ⟨v0, [], HttpResponse.err400 "No firmware data"⟩ :=
  rfl

/-- C4: the line framer appends printable ASCII (32-126) to the buffer while
    below the 255-character capacity and silently drops printable bytes at
    capacity; a CR or LF with a non-empty buffer emits exactly one line event
    equal to the buffered text and resets the buffer; a CR or LF with an empty
    buffer emits nothing; all other bytes are ignored; and the input
    "AA\n BB\r\n C" (bytes 65 65 10 66 66 13 10 67) yields exactly the events
    ["AA", "BB"] with "C" left pending in the buffer. -/
theorem line_framer_spec :
    (∀ buf c, 32 ≤ c → c < 127 → buf.length < 255 →
        frameByte buf c = (buf ++ [c], none)) ∧
    (∀ buf c, 32 ≤ c → c < 127 → 255 ≤ buf.length →
        frameByte buf c = (buf, none)) ∧
    (∀ buf c, (c = 10 ∨ c = 13) → buf ≠ [] → frameByte buf c = ([], some buf)) ∧
    (∀ c, (c = 10 ∨ c = 13) → frameByte [] c = ([], none)) ∧
    (∀ buf c, c ≠ 10 → c ≠ 13 → ¬(32 ≤ c ∧ c < 127) → frameByte buf c = (buf, none)) ∧
    handle_rx [] [65, 65, 10, 66, 66, 13, 10, 67] = ([67], [[65, 65], [66, 66]]) := by
  refine ⟨?_, ?_, ?_, ?_, ?_, by decide⟩
  · intro buf c h1 h2 h3
    simp only [frameByte]
    rw [if_neg (by omega), if_pos ⟨h1, h2⟩, if_pos h3]
  · intro buf c h1 h2 h3
    simp only [frameByte]
    rw [if_neg (by omega), if_pos ⟨h1, h2⟩, if_neg (by omega)]
  · intro buf c h1 h2
    simp only [frameByte]
    rw [if_pos h1, if_pos (List.length_pos.mpr h2)]
  · intro c h1
    simp only [frameByte]
    rw [if_pos h1, if_neg (by simp)]
  · intro buf c h1 h2 h3
    simp only [frameByte]
    rw [if_neg (by omega), if_neg h3]

/-- Witness for C4: each hypothesised clause of `line_framer_spec`
    applied at a concrete input. -/
theorem line_framer_spec_witness :
    frameByte [65] 66 = ([65, 66], none) ∧
    frameByte (List.replicate 255 65) 66 = (List.replicate 255 65, none) ∧
    frameByte [65] 10 = ([], some [65]) ∧
    frameByte [] 13 = ([], none) ∧
    frameByte [65] 9 = ([65], none) :=
  ⟨line_framer_spec.1 [65] 66 (by decide) (by decide) (by decide),
   line_framer_spec.2.1 (List.replicate 255 65) 66 (by decide) (by decide) (by decide),
   line_framer_spec.2.2.1 [65] 10 (Or.inl rfl) (by decide),
   line_framer_spec.2.2.2.1 13 (Or.inr rfl),
   line_framer_spec.2.2.2.2.1 [65] 9 (by decide) (by decide) (by decide)⟩

/-- C6: writing command 0x01 to the Control characteristic twice before the
    control loop observes the flag yields exactly one mode switch: across the
    next two loop iterations exactly one `startOtaMode` is performed, the
    iteration that consumes the flag clears it as its very first action, and
    the flag is left cleared. -/
theorem mode_flag_single_switch (otaCharHandle : Nat) (needRsp : Bool) :
    let w : WriteParams := ⟨otaCharHandle, [1], needRsp⟩
    let afterTwoWrites :=
      (gatts_write_event otaCharHandle
        (gatts_write_event otaCharHandle false w).1 w).1
    let firstIter := mainLoopIter afterTwoWrites
    let secondIter := mainLoopIter firstIter.1
    (firstIter.2 ++ secondIter.2).count MainAction.startOtaMode = 1 ∧
    firstIter.2.head? = some MainAction.clearFlag ∧
    firstIter.1 = false := by
  have h1 : (gatts_write_event otaCharHandle
      (gatts_write_event otaCharHandle false ⟨otaCharHandle, [1], needRsp⟩).1
      ⟨otaCharHandle, [1], needRsp⟩).1 = true := by
    simp [gatts_write_event]
  simp only [h1, mainLoopIter]
  decide

/-- C7: for a write request on the Control handle with a non-empty payload,
    first byte 0x01 sets the mode flag, any other first byte leaves the flag
    unchanged, and in every case a response is sent exactly when the peer
    requested one. -/
theorem control_write_dispatch (otaCharHandle : Nat) (flag : Bool)
    (value : List Nat) (needRsp : Bool) (hne : value ≠ []) :
    (value.head? = some 1 →
        (gatts_write_event otaCharHandle flag ⟨otaCharHandle, value, needRsp⟩).1 = true) ∧
    (∀ c, value.head? = some c → c ≠ 1 →
        (gatts_write_event otaCharHandle flag ⟨otaCharHandle, value, needRsp⟩).1 = flag) ∧
    (gatts_write_event otaCharHandle flag ⟨otaCharHandle, value, needRsp⟩).2 = needRsp := by
  have hlen : 1 ≤ value.length := by
    cases value with
    | nil => exact absurd rfl hne
    | cons a l => simp
  refine ⟨?_, ?_, rfl⟩
  · intro hh
    simp [gatts_write_event, hlen, hh]
  · intro c hh hc
    simp [gatts_write_event, hlen, hh, hc]

/-- Witness for C7: command 0x01 sets the flag, command 0x02 leaves it
    unchanged, and the response mirrors the request flag. -/
theorem control_write_dispatch_witness :
    (gatts_write_event 5 false ⟨5, [1], true⟩).1 = true ∧
    (gatts_write_event 5 false ⟨5, [2], true⟩).1 = false ∧
    (gatts_write_event 5 false ⟨5, [2], true⟩).2 = true :=
  ⟨(control_write_dispatch 5 false [1] true (by decide)).1 rfl,
   (control_write_dispatch 5 false [2] true (by decide)).2.1 2 rfl (by decide),
   (control_write_dispatch 5 false [2] true (by decide)).2.2⟩

/-- C9: the progress expression of the upload loop is exact integer arithmetic
    `floor(received * 100 / total)` whenever the `size_t` product does not
    overflow (always the case for firmware-sized uploads), and in particular
    for total = 12345 and received = 6172 the progress is 49. -/
theorem progress_exact :
    (∀ receivedSize totalSize : Nat, receivedSize * 100 < 2 ^ 32 →
        computeProgress receivedSize totalSize = receivedSize * 100 / totalSize) ∧
    computeProgress 6172 12345 = 49 := by
  constructor
  · intro r t h
    unfold computeProgress
    rw [Nat.mod_eq_of_lt h]
  · decide

/-- Witness for C9: the exactness clause evaluated at received = 6172,
    total = 12345. -/
theorem progress_exact_witness :
    computeProgress 6172 12345 = 6172 * 100 / 12345 ∧ 6172 * 100 / 12345 = 49 :=
  ⟨progress_exact.1 6172 12345 (by decide), by decide⟩

/-- C10: a write request on the Control handle with an empty payload changes
    no state — the flag is returned unchanged — and is still acknowledged
    exactly when the peer requested a response. -/
theorem control_write_empty_payload (otaCharHandle : Nat) (flag : Bool)
    (needRsp : Bool) :
    gatts_write_event otaCharHandle flag ⟨otaCharHandle, [], needRsp⟩ =
      (flag, needRsp) := by
  simp [gatts_write_event]

/-- If the pipeline is non-terminal at every poll the loop will make, the
    coordinator wait loop runs down its whole budget and exits through the
    timeout branch, applying `ota_stop_update_mode` to the state seen at the
    final poll. -/
theorem coordinatorWaitAux_timeout (sched : Nat → OtaVars) :
    ∀ (n k : Nat),
      (∀ j, k ≤ j → j ≤ k + n →
          (sched j).state ≠ .success ∧ (sched j).state ≠ .failed) →
      coordinatorWaitAux sched k n =
        .timeoutRestart (ota_stop_update_mode (sched (k + n))) := by
  intro n
  induction n with
  | zero =>
    intro k h
    obtain ⟨h1, h2⟩ := h k le_rfl (by omega)
    simp [coordinatorWaitAux, h1, h2]
  | succ n ih =>
    intro k h
    obtain ⟨h1, h2⟩ := h k le_rfl (by omega)
    have hrec := ih (k + 1) (fun j hj1 hj2 => h j (by omega) (by omega))
    have hidx : k + 1 + n = k + (n + 1) := by omega
    rw [hidx] at hrec
    simp [coordinatorWaitAux, h1, h2, hrec]

/-- C5 counterexample: with the pipeline stuck in `wifiReady` (no upload ever
    starts), the coordinator's 5-minute ceiling fires and it restarts the
    device, but the pipeline state it leaves behind is Idle — not Failed — and
    `last_error` is still 0, never `OTA_ERR_TIMEOUT`, contradicting the claim
    that it "forces the pipeline into Failed with last error = Timeout". -/
theorem coordinator_timeout_counterexample :
    coordinatorWait schedStuck =
      CoordOutcome.timeoutRestart ⟨OtaState.idle, -1, 0, 0, 0⟩ ∧
    OtaState.idle ≠ OtaState.failed ∧
    (0 : Nat) ≠ OTA_ERR_TIMEOUT := by
  exact ⟨by decide, by decide, by decide⟩

/-- C5 amended: if the pipeline reaches no terminal state within the 5-minute
    ceiling, the coordinator stops the pipeline — `ota_stop_update_mode`
    resets it to Idle with progress -1, leaving `last_error` unchanged — and
    performs a device restart back into bridge mode (the `timeoutRestart`
    outcome); it never stays in update mode past the ceiling, but it does not
    force the Failed state and does not record error = Timeout. -/
theorem coordinator_timeout_behavior (sched : Nat → OtaVars)
    (h : ∀ j, j ≤ OTA_TIMEOUT_POLLS + 1 →
        (sched j).state ≠ .success ∧ (sched j).state ≠ .failed) :
    coordinatorWait sched =
      .timeoutRestart (ota_stop_update_mode (sched (OTA_TIMEOUT_POLLS + 1))) ∧
    (ota_stop_update_mode (sched (OTA_TIMEOUT_POLLS + 1))).state = OtaState.idle ∧
    (ota_stop_update_mode (sched (OTA_TIMEOUT_POLLS + 1))).progress = -1 ∧
    (ota_stop_update_mode (sched (OTA_TIMEOUT_POLLS + 1))).lastError =
      (sched (OTA_TIMEOUT_POLLS + 1)).lastError := by
  refine ⟨?_, rfl, rfl, rfl⟩
  have hrec := coordinatorWaitAux_timeout sched (OTA_TIMEOUT_POLLS + 1) 0
      (fun j hj1 hj2 => h j (by omega))
  simpa [coordinatorWait] using hrec

/-- Witness for C5 (amended): the stuck pipeline discharges the non-terminal
    hypothesis at every poll. -/
theorem coordinator_timeout_behavior_witness :
    coordinatorWait schedStuck =
      CoordOutcome.timeoutRestart
        (ota_stop_update_mode (schedStuck (OTA_TIMEOUT_POLLS + 1))) ∧
    (ota_stop_update_mode (schedStuck (OTA_TIMEOUT_POLLS + 1))).state =
      OtaState.idle ∧
    (ota_stop_update_mode (schedStuck (OTA_TIMEOUT_POLLS + 1))).progress = -1 ∧
    (ota_stop_update_mode (schedStuck (OTA_TIMEOUT_POLLS + 1))).lastError =
      (schedStuck (OTA_TIMEOUT_POLLS + 1)).lastError :=
  coordinator_timeout_behavior schedStuck
    (fun j hj => ⟨by simp [schedStuck, v0Ready], by simp [schedStuck, v0Ready]⟩)

/-- C8: while the session is Active and no bytes arrive after time `lastData`,
    (a) a watchdog exit can only happen at a poll time strictly later than
    `lastData` + the 5000 ms timeout — never before expiry — and (b) for any
    watchdog-check schedule whose first poll is within one interval of the
    expiry bound, whose gaps are at most the 1000 ms poll interval, and which
    eventually polls past expiry, the loop exits exactly once (the single
    `some` result), via the watchdog, within one polling interval after
    expiry. -/
theorem watchdog_exit_timing :
    (∀ (lastData : Nat) (polls : List ActivePoll) (t : Nat),
        activeLoop lastData polls = some (SessionExit.watchdog t) →
        lastData + DATA_TIMEOUT_MS < t) ∧
    (∀ (lastData t0 : Nat) (rest : List Nat),
        t0 ≤ lastData + DATA_TIMEOUT_MS + 1000 →
        gapsWithin 1000 (t0 :: rest) = true →
        ((t0 :: rest).any fun u => watchdogExpired u lastData) = true →
        ∃ t, activeLoop lastData (checkTimes (t0 :: rest)) =
               some (SessionExit.watchdog t) ∧
             lastData + DATA_TIMEOUT_MS < t ∧
             t ≤ lastData + DATA_TIMEOUT_MS + 1000) := by
  constructor
  · intro L polls
    induction polls with
    | nil => intro t h; simp [activeLoop] at h
    | cons p rest ih =>
      intro t h
      cases p with
      | disconnect u => simp [activeLoop] at h
      | check u =>
        cases hE : watchdogExpired u L with
        | false =>
            rw [activeLoop, hE] at h
            exact ih t (by simpa using h)
        | true =>
            rw [activeLoop, hE] at h
            simp only [if_true, Option.some.injEq, SessionExit.watchdog.injEq] at h
            have hlt : DATA_TIMEOUT_MS < u - L := by
              simpa [watchdogExpired] using hE
            omega
  · intro L t0 rest
    induction rest generalizing t0 with
    | nil =>
      intro hb hg ha
      have hE : watchdogExpired t0 L = true := by simpa using ha
      have hlt : DATA_TIMEOUT_MS < t0 - L := by simpa [watchdogExpired] using hE
      exact ⟨t0, by simp [checkTimes, activeLoop, hE], by omega, hb⟩
    | cons t1 rest ih =>
      intro hb hg ha
      cases hE : watchdogExpired t0 L with
      | true =>
        have hlt : DATA_TIMEOUT_MS < t0 - L := by simpa [watchdogExpired] using hE
        exact ⟨t0, by simp [checkTimes, activeLoop, hE], by omega, hb⟩
      | false =>
        have hnot : ¬ DATA_TIMEOUT_MS < t0 - L := by
          simpa [watchdogExpired] using hE
        have hgap : t1 ≤ t0 + 1000 := by
          have := hg
          simp only [gapsWithin, Bool.and_eq_true, decide_eq_true_eq] at this
          exact this.1
        have hg1 : gapsWithin 1000 (t1 :: rest) = true := by
          simp only [gapsWithin, Bool.and_eq_true, decide_eq_true_eq] at hg
          exact hg.2
        have ha1 : ((t1 :: rest).any fun u => watchdogExpired u L) = true := by
          simp only [List.any_cons, Bool.or_eq_true] at ha ⊢
          rcases ha with ha | ha
          · exact absurd ha (by simp [hE])
          · exact ha
        obtain ⟨t, h1, h2, h3⟩ := ih t1 (by omega) hg1 ha1
        refine ⟨t, ?_, h2, h3⟩
        simpa [checkTimes, activeLoop, hE] using h1

/-- Witness for C8: a concrete quiet session (last byte at time 0) and the
    poll schedule 1000, 2000, ..., 6000 exits via the watchdog at time 6000,
    strictly after expiry and within one interval of it. -/
theorem watchdog_exit_timing_witness :
    activeLoop 0 [ActivePoll.check 6000] = some (SessionExit.watchdog 6000) ∧
    0 + DATA_TIMEOUT_MS < 6000 ∧
    (∃ t, activeLoop 0 (checkTimes [1000, 2000, 3000, 4000, 5000, 6000]) =
            some (SessionExit.watchdog t) ∧
          0 + DATA_TIMEOUT_MS < t ∧ t ≤ 0 + DATA_TIMEOUT_MS + 1000) :=
  ⟨by decide,
   watchdog_exit_timing.1 0 [ActivePoll.check 6000] 6000 (by decide),
   watchdog_exit_timing.2 0 1000 [2000, 3000, 4000, 5000, 6000]
     (by decide) (by decide) (by decide)⟩

/-- Appending traces multiplies the no-boot-commit predicate. -/
theorem noSetBoot_append (l1 l2 : List FlashOp) :
    noSetBoot (l1 ++ l2) = (noSetBoot l1 && noSetBoot l2) := by
  simp [noSetBoot, List.all_append]

/-- A trace with no boot commit vacuously commits only after finalize. -/
theorem setBootAfterFinalize_of_noSetBoot :
    ∀ l : List FlashOp, noSetBoot l = true → setBootAfterFinalize l = true := by
  intro l
  induction l with
  | nil => intro _; rfl
  | cons op rest ih =>
    intro h
    simp only [noSetBoot, List.all_cons, Bool.and_eq_true] at h
    cases op with
    | beginOp => simpa [setBootAfterFinalize] using ih h.2
    | writeOp bytes => simpa [setBootAfterFinalize] using ih h.2
    | abortOp => simpa [setBootAfterFinalize] using ih h.2
    | setBootOp => simp at h
    | finalizeOp ok =>
        cases ok with
        | true => simp [setBootAfterFinalize]
        | false => simpa [setBootAfterFinalize] using ih h.2

/-- A trace with no boot commit, followed by a successful finalize, satisfies
    commit-after-finalize no matter what comes after the finalize. -/
theorem setBootAfterFinalize_append_finalize :
    ∀ (l1 l2 : List FlashOp), noSetBoot l1 = true →
      setBootAfterFinalize (l1 ++ FlashOp.finalizeOp true :: l2) = true := by
  intro l1
  induction l1 with
  | nil => intro l2 _; simp [setBootAfterFinalize]
  | cons op rest ih =>
    intro l2 h
    simp only [noSetBoot, List.all_cons, Bool.and_eq_true] at h
    rw [List.cons_append]
    cases op with
    | beginOp => simpa [setBootAfterFinalize] using ih l2 h.2
    | writeOp bytes => simpa [setBootAfterFinalize] using ih l2 h.2
    | abortOp => simpa [setBootAfterFinalize] using ih l2 h.2
    | setBootOp => simp at h
    | finalizeOp ok =>
        cases ok with
        | true => simp [setBootAfterFinalize]
        | false => simpa [setBootAfterFinalize] using ih l2 h.2

/-- The receive loop appends only write and abort operations to the flash
    trace: it never finalizes and never commits the boot pointer. -/
theorem recvLoop_noSetBoot (env : Env) :
    ∀ (events : List RecvEvent) (v : OtaVars) (remaining : Nat)
      (firstChunk : Bool) (writeIdx : Nat) (ops : List FlashOp),
      noSetBoot ops = true →
      (match recvLoop env v remaining firstChunk writeIdx ops events with
       | .done _ ops2 => noSetBoot ops2 = true
       | .fail r => noSetBoot r.ops = true) := by
  intro events
  induction events with
  | nil =>
    intro v rem fc wi ops h
    rw [recvLoop]
    by_cases hr : rem = 0 <;> simp [hr, h]
  | cons e rest ih =>
    intro v rem fc wi ops h
    have hall : ∀ x ∈ ops,
        (match x with | FlashOp.setBootOp => false | _ => true) = true := by
      simpa [noSetBoot] using h
    by_cases hr : rem = 0
    · rw [recvLoop.eq_def]
      simp [hr, h]
    · cases e with
      | timeout =>
          rw [recvLoop.eq_def]
          simp only [hr, if_false]
          exact ih v rem fc wi ops h
      | sockErr =>
          rw [recvLoop.eq_def]
          simp only [hr, if_false]
          simp [noSetBoot_append, noSetBoot]
          exact hall
      | data bytes =>
          rw [recvLoop.eq_def]
          simp only [hr, if_false]
          by_cases h1 : bytes.length = 0
          · simp [h1, noSetBoot_append, noSetBoot]
            exact hall
          · simp only [h1, if_false]
            by_cases h2 : fc = true ∧ bytes.length < espImageHeaderSize
            · simp [h2, noSetBoot_append, noSetBoot]
              exact hall
            · simp only [h2, if_false]
              by_cases h3 : fc = true ∧ bytes.head? ≠ some ESP_IMAGE_HEADER_MAGIC
              · simp [h3, noSetBoot_append, noSetBoot]
                exact hall
              · simp only [h3, if_false]
                by_cases h4 : env.writeOk wi = false
                · simp [h4, noSetBoot_append, noSetBoot]
                  exact hall
                · simp only [h4, if_false]
                  refine ih _ _ _ _ _ ?_
                  simp [noSetBoot_append, noSetBoot]
                  exact hall

/-- C2: on every execution path of the upload handler, a boot-pointer change
    (`esp_ota_set_boot_partition` succeeding) occurs in the flash trace only
    after a successful finalize (`esp_ota_end` returning OK); no path updates
    the boot pointer before or without a successful finalize. -/
theorem boot_commit_after_finalize (env : Env) (contentLen : Nat)
    (events : List RecvEvent) (v0 : OtaVars) :
    setBootAfterFinalize (update_post_handler env contentLen events v0).ops = true := by
  unfold update_post_handler
  by_cases h0 : contentLen = 0
  · simp [h0, setBootAfterFinalize]
  · simp only [h0, if_false]
    by_cases hpart : env.partitionAvailable = false
    · simp [hpart, setBootAfterFinalize]
    · simp only [hpart, if_false]
      by_cases hbegin : env.beginOk = false
      · simp [hbegin, setBootAfterFinalize]
      · simp only [hbegin, if_false]
        by_cases hmalloc : env.mallocOk = false
        · simp [hmalloc, setBootAfterFinalize]
        · simp only [hmalloc, if_false]
          have hloop := recvLoop_noSetBoot env events
            { v0 with state := .updating, totalSize := contentLen,
                      receivedSize := 0, progress := 0 }
            contentLen true 0 [.beginOp] (by decide)
          cases hres : recvLoop env
              { v0 with state := .updating, totalSize := contentLen,
                        receivedSize := 0, progress := 0 }
              contentLen true 0 [.beginOp] events with
          | fail r =>
              rw [hres] at hloop
              have hno : noSetBoot r.ops = true := hloop
              simpa using setBootAfterFinalize_of_noSetBoot r.ops hno
          | done v1 ops1 =>
              rw [hres] at hloop
              have hno : noSetBoot ops1 = true := hloop
              simp only []
              by_cases hend : env.endOk = false
              · have hall1 : ∀ x ∈ ops1,
                    (match x with | FlashOp.setBootOp => false | _ => true) = true := by
                  simpa [noSetBoot] using hno
                have hnof : noSetBoot (ops1 ++ [FlashOp.finalizeOp false]) = true := by
                  simp [noSetBoot_append, noSetBoot]
                  exact hall1
                by_cases hvf : env.endValidateFailed = true <;>
                  simp only [hend, if_true, hvf, if_false, Bool.false_eq_true] <;>
                  exact setBootAfterFinalize_of_noSetBoot _ hnof
              · by_cases hsb : env.setBootOk = false
                · simp only [hend, if_false, hsb, if_true]
                  exact setBootAfterFinalize_append_finalize ops1 [] hno
                · simp only [hend, if_false, hsb]
                  have hfin := setBootAfterFinalize_append_finalize ops1 [.setBootOp] hno
                  simpa using hfin

/-- Leading socket timeouts are retried by the receive loop without changing
    any state (the `continue` of ota_update.c line 148). -/
theorem recvLoop_skip_timeouts (env : Env) (v : OtaVars) (remaining : Nat)
    (firstChunk : Bool) (writeIdx : Nat) (ops : List FlashOp)
    (hr : remaining ≠ 0) :
    ∀ (k : Nat) (events : List RecvEvent),
      recvLoop env v remaining firstChunk writeIdx ops
          (List.replicate k .timeout ++ events) =
        recvLoop env v remaining firstChunk writeIdx ops events := by
  intro k
  induction k with
  | zero => intro events; rfl
  | succ k ih =>
      intro events
      rw [List.replicate_succ, List.cons_append, recvLoop]
      simp only [hr, if_false]
      exact ih events

/-- C1: for every upload whose first received chunk (after any number of
    retried socket timeouts) is smaller than the platform firmware-image
    header or whose first byte differs from `ESP_IMAGE_HEADER_MAGIC`, the
    pipeline ends in Failed with last error `OTA_ERR_VALIDATION`, and the
    flash trace contains no `esp_ota_write` call at all — the header check
    runs before the first flash write. -/
theorem first_chunk_validation (env : Env) (contentLen : Nat) (k : Nat)
    (bytes : List Nat) (rest : List RecvEvent) (v0 : OtaVars)
    (hcl : contentLen ≠ 0)
    (hpart : env.partitionAvailable = true)
    (hbegin : env.beginOk = true)
    (hmalloc : env.mallocOk = true)
    (hne : bytes ≠ [])
    (hbad : bytes.length < espImageHeaderSize ∨
            bytes.head? ≠ some ESP_IMAGE_HEADER_MAGIC) :
    (update_post_handler env contentLen
        (List.replicate k .timeout ++ .data bytes :: rest) v0).vars.state =
      OtaState.failed ∧
    (update_post_handler env contentLen
        (List.replicate k .timeout ++ .data bytes :: rest) v0).vars.lastError =
      OTA_ERR_VALIDATION ∧
    noFlashWrite (update_post_handler env contentLen
        (List.replicate k .timeout ++ .data bytes :: rest) v0).ops = true := by
  have hlen : bytes.length ≠ 0 := by
    simpa [List.length_eq_zero] using hne
  have hpart2 : ¬ env.partitionAvailable = false := by simp [hpart]
  have hbegin2 : ¬ env.beginOk = false := by simp [hbegin]
  have hmalloc2 : ¬ env.mallocOk = false := by simp [hmalloc]
  unfold update_post_handler
  simp only [hcl, if_false, hpart2, hbegin2, hmalloc2]
  rw [recvLoop_skip_timeouts env _ contentLen true 0 _ hcl]
  rw [recvLoop.eq_def]
  simp only [hcl, if_false]
  by_cases hsz : bytes.length < espImageHeaderSize
  · simp [hlen, hsz, noFlashWrite]
  · have hmag : bytes.head? ≠ some ESP_IMAGE_HEADER_MAGIC := hbad.resolve_left hsz
    simp [hlen, hsz, hmag, noFlashWrite]

/-- Witness for C1: a 100-byte upload whose first chunk is the single byte
    0x00 (smaller than the image header) ends Failed/Validation with an empty
    write trace. -/
theorem first_chunk_validation_witness :
    (update_post_handler envAllOk 100 [RecvEvent.data [0]] v0Ready).vars.state =
      OtaState.failed ∧
    (update_post_handler envAllOk 100 [RecvEvent.data [0]] v0Ready).vars.lastError =
      OTA_ERR_VALIDATION ∧
    noFlashWrite
      (update_post_handler envAllOk 100 [RecvEvent.data [0]] v0Ready).ops = true :=
  first_chunk_validation envAllOk 100 0 [0] [] v0Ready (by decide) rfl rfl rfl
    (by decide) (Or.inl (by decide))

end GasTag
